import Mathlib

/-!
Verification of the argocd-mcp request/response normalization layer and the
domain-to-wire Application mapping, as a shallow embedding of the Python
source (src/api/client.py, src/models/applications.py, src/tools/*.py).

Python runtime values (as they arise from JSON parsing and from the code's
own literals) are modelled by the inductive type `Py`; Python `None` is the
constructor `Py.none` (JSON `null` parses to `None`, so the two coincide,
exactly as in the Python runtime).  Dictionary operations that raise in
Python (`d[k]`, item assignment, `del`, attribute lookup of `.get` on a
non-dict) are modelled in an `Except PyExc` monad; exception message texts
are abbreviated where Python's exact wording is irrelevant.
-/

inductive Py : Type where
  | none : Py
  | bool : Bool → Py
  | int : Int → Py
  | str : String → Py
  | list : List Py → Py
  | dict : List (String × Py) → Py

/-- Python exceptions that the embedded code can raise. -/
inductive PyExc : Type where
  | timeout : PyExc
  | requestError : String → PyExc
  | other : String → PyExc
deriving DecidableEq

mutual

/-- Structural equality of Python values (Python `==` on JSON-like data). -/
def Py.beq : Py → Py → Bool
  | .none, .none => true
  | .bool a, .bool b => a == b
  | .int a, .int b => a == b
  | .str a, .str b => a == b
  | .list xs, .list ys => Py.beqList xs ys
  | .dict xs, .dict ys => Py.beqKVList xs ys
  | _, _ => false

def Py.beqList : List Py → List Py → Bool
  | [], [] => true
  | x :: xs, y :: ys => Py.beq x y && Py.beqList xs ys
  | _, _ => false

def Py.beqKVList : List (String × Py) → List (String × Py) → Bool
  | [], [] => true
  | (k1, v1) :: xs, (k2, v2) :: ys => k1 == k2 && Py.beq v1 v2 && Py.beqKVList xs ys
  | _, _ => false

end

/-- Python `x is None`. -/
def Py.isNone : Py → Bool
  | .none => true
  | _ => false

/-- A single-quote character as a string (used in the source's f-strings). -/
def squot : String := String.singleton (Char.ofNat 39)

/-- First-match association-list lookup, i.e. Python dict lookup. -/
def pyLookup : List (String × Py) → String → Option Py
  | [], _ => Option.none
  | (k, v) :: rest, key => if k = key then some v else pyLookup rest key

/-- Python truthiness (`bool(x)` / `if x:`). -/
def Py.truthy : Py → Bool
  | .none => false
  | .bool b => b
  | .int n => n != 0
  | .str s => s != ""
  | .list xs => !xs.isEmpty
  | .dict kvs => !kvs.isEmpty

/-- Python `d.get(key, default)`: raises AttributeError on a non-dict. -/
def pyGetE (p : Py) (key : String) (default : Py) : Except PyExc Py :=
  match p with
  | .dict kvs => .ok ((pyLookup kvs key).getD default)
  | _ => .error (.other "AttributeError: object has no attribute get")

/-- Python `d[key]` on a string key: KeyError when absent, TypeError on non-dicts. -/
def pyGetItem (p : Py) (key : String) : Except PyExc Py :=
  match p with
  | .dict kvs =>
    match pyLookup kvs key with
    | some v => .ok v
    | Option.none => .error (.other ("KeyError: " ++ key))
  | .str _ => .error (.other "TypeError: string indices must be integers")
  | .list _ => .error (.other "TypeError: list indices must be integers")
  | _ => .error (.other "TypeError: object is not subscriptable")

/-- Replace the value at an existing key in place, else append. -/
def pyAssocSet : List (String × Py) → String → Py → List (String × Py)
  | [], key, v => [(key, v)]
  | (k, w) :: rest, key, v =>
    if k = key then (k, v) :: rest else (k, w) :: pyAssocSet rest key v

/-- Python `d[key] = v`: TypeError on non-dicts. -/
def pySetItem (p : Py) (key : String) (v : Py) : Except PyExc Py :=
  match p with
  | .dict kvs => .ok (.dict (pyAssocSet kvs key v))
  | _ => .error (.other "TypeError: object does not support item assignment")

/-- Total variant of item assignment, used only where the receiver is a
dict literal of the source itself (non-dicts are returned unchanged). -/
def pyDictSet (p : Py) (key : String) (v : Py) : Py :=
  match p with
  | .dict kvs => .dict (pyAssocSet kvs key v)
  | _ => p

def pyAssocDel : List (String × Py) → String → List (String × Py)
  | [], _ => []
  | (k, w) :: rest, key => if k = key then rest else (k, w) :: pyAssocDel rest key

/-- Python `del d[key]`: TypeError on non-dicts, KeyError when absent. -/
def pyDelItem (p : Py) (key : String) : Except PyExc Py :=
  match p with
  | .dict kvs =>
    match pyLookup kvs key with
    | some _ => .ok (.dict (pyAssocDel kvs key))
    | Option.none => .error (.other ("KeyError: " ++ key))
  | _ => .error (.other "TypeError: object does not support item deletion")

def listHasInfix (needle : List Char) : List Char → Bool
  | [] => needle.isEmpty
  | c :: rest => needle.isPrefixOf (c :: rest) || listHasInfix needle rest

/-- Substring test, Python `needle in s` for strings. -/
def containsStr (s needle : String) : Bool :=
  listHasInfix needle.toList s.toList

/-- Python `needle in p` with a string needle: key test on dicts, substring
test on strings, membership on lists, TypeError otherwise. -/
def pyInStr (needle : String) (p : Py) : Except PyExc Bool :=
  match p with
  | .dict kvs => .ok (kvs.any (fun kv => kv.1 == needle))
  | .str s => .ok (containsStr s needle)
  | .list xs => .ok (xs.any (fun x => Py.beq x (.str needle)))
  | _ => .error (.other "TypeError: argument is not iterable")

/-- Boolean key-presence test on a (dict-shaped) value. -/
def pyHasKeyB (p : Py) (key : String) : Bool :=
  match p with
  | .dict kvs => kvs.any (fun kv => kv.1 == key)
  | _ => false

/-- Python `list(x)`: copies lists, splits strings into characters,
lists a dict's keys, raises TypeError otherwise. -/
def pyListE (p : Py) : Except PyExc Py :=
  match p with
  | .list xs => .ok (.list xs)
  | .str s => .ok (.list (s.toList.map (fun c => Py.str (String.singleton c))))
  | .dict kvs => .ok (.list (kvs.map (fun kv => Py.str kv.1)))
  | _ => .error (.other "TypeError: object is not iterable")

mutual

/-- Python `repr`, as used by `str` on list/dict elements.  String escaping
of quote characters inside strings is not modelled (no claim exercises it). -/
def pyRepr : Py → String
  | .none => "None"
  | .bool b => cond b "True" "False"
  | .int n => toString n
  | .str s => squot ++ s ++ squot
  | .list xs => "[" ++ pyReprList xs ++ "]"
  | .dict kvs => "\x7b" ++ pyReprKVList kvs ++ "\x7d"

def pyReprList : List Py → String
  | [] => ""
  | [x] => pyRepr x
  | x :: xs => pyRepr x ++ ", " ++ pyReprList xs

def pyReprKVList : List (String × Py) → String
  | [] => ""
  | [(k, v)] => squot ++ k ++ squot ++ ": " ++ pyRepr v
  | (k, v) :: kvs => squot ++ k ++ squot ++ ": " ++ pyRepr v ++ ", " ++ pyReprKVList kvs

end

/-- Python `str(x)` (f-string interpolation). -/
def pyStr : Py → String
  | .str s => s
  | p => pyRepr p

/-- Truthiness of a Python `Optional[str]` argument (`if x:`). -/
def optStrTruthy : Option String → Bool
  | Option.none => false
  | some s => s != ""

/-!  Domain model (src/models/applications.py).  Dataclass fields hold the
runtime values the source actually stores in them, so fields typed
`str`/`Optional[Dict]`/`List[str]` in Python are `Py` here (with `Py.none`
for Python `None`); `automated` is a genuine `bool` in every code path
(`bool(...)` or a literal), so it is `Bool`. -/

structure ApplicationSource where
  repo_url : Py
  path : Py
  target_revision : Py
  helm : Py
  kustomize : Py
  directory : Py

structure ApplicationDestination where
  server : Py
  namespace' : Py
  name : Py

structure ApplicationSyncPolicy where
  automated : Bool
  prune : Py
  self_heal : Py
  allow_empty : Py
  sync_options : Py
  retry : Py

structure ApplicationStatus where
  sync_status : Py
  health_status : Py
  resources : Py
  conditions : Py
  operation_state : Py

structure Application where
  name : Py
  project : Py
  source : ApplicationSource
  destination : ApplicationDestination
  sync_policy : Option ApplicationSyncPolicy
  namespace' : Py
  status : Option ApplicationStatus

/-- `application_to_api_format` (src/models/applications.py:74-134): convert
an Application to the ArgoCD wire format.  The only fallible step is
`list(app.sync_policy.sync_options)`. -/
def application_to_api_format (app : Application) : Except PyExc Py :=
  let source := Py.dict [("repoURL", app.source.repo_url), ("path", app.source.path),
    ("targetRevision", app.source.target_revision)]
  let source := if (app.source.helm.isNone : Bool) then source
    else pyDictSet source "helm" app.source.helm
  let source := if (app.source.kustomize.isNone : Bool) then source
    else pyDictSet source "kustomize" app.source.kustomize
  let source := if (app.source.directory.isNone : Bool) then source
    else pyDictSet source "directory" app.source.directory
  let destination := Py.dict [("server", app.destination.server),
    ("namespace", app.destination.namespace')]
  let destination := if app.destination.name.truthy then
    pyDictSet destination "name" app.destination.name else destination
  let result := Py.dict [
    ("metadata", Py.dict [("name", app.name), ("namespace", app.namespace')]),
    ("spec", Py.dict [("project", app.project), ("source", source),
      ("destination", destination)])]
  match app.sync_policy with
  | Option.none => .ok result
  | some sp =>
    let sync_policy := Py.dict []
    let sync_policy := if sp.automated then
        pyDictSet sync_policy "automated" (Py.dict [("prune", sp.prune),
          ("selfHeal", sp.self_heal), ("allowEmpty", sp.allow_empty)])
      else sync_policy
    match (if sp.sync_options.truthy then
        (pyListE sp.sync_options).map (fun l => pyDictSet sync_policy "syncOptions" l)
      else .ok sync_policy) with
    | .error e => .error e
    | .ok sync_policy =>
      let sync_policy := if sp.retry.truthy then pyDictSet sync_policy "retry" sp.retry
        else sync_policy
      -- spec = result.get("spec"); if isinstance(spec, dict): spec["syncPolicy"] = ...
      match (pyLookup [("metadata", Py.dict [("name", app.name),
          ("namespace", app.namespace')]), ("spec", Py.dict [("project", app.project),
          ("source", source), ("destination", destination)])] "spec").getD Py.none with
      | Py.dict kvs =>
        .ok (pyDictSet result "spec" (pyDictSet (Py.dict kvs) "syncPolicy" sync_policy))
      | _ => .ok result

/-- `api_format_to_application` (src/models/applications.py:137-205): convert
an ArgoCD wire value to an Application.  Every `.get` raises AttributeError
when its receiver is not a dict, as in Python. -/
def api_format_to_application (data : Py) : Except PyExc Application := do
  let metadata ← pyGetE data "metadata" (Py.dict [])
  let spec ← pyGetE data "spec" (Py.dict [])
  let status_data ← pyGetE data "status" (Py.dict [])
  let source_data ← pyGetE spec "source" (Py.dict [])
  let repo_url ← pyGetE source_data "repoURL" (Py.str "")
  let path ← pyGetE source_data "path" (Py.str "")
  let target_revision ← pyGetE source_data "targetRevision" (Py.str "HEAD")
  let helm ← pyGetE source_data "helm" Py.none
  let kustomize ← pyGetE source_data "kustomize" Py.none
  let directory ← pyGetE source_data "directory" Py.none
  let source : ApplicationSource := ⟨repo_url, path, target_revision, helm, kustomize, directory⟩
  let dest_data ← pyGetE spec "destination" (Py.dict [])
  let server ← pyGetE dest_data "server" (Py.str "")
  let dnamespace ← pyGetE dest_data "namespace" (Py.str "")
  let dname ← pyGetE dest_data "name" Py.none
  let destination : ApplicationDestination := ⟨server, dnamespace, dname⟩
  let hasSyncPolicy ← pyInStr "syncPolicy" spec
  let sync_policy ← if hasSyncPolicy then do
      let sync_policy_data ← pyGetItem spec "syncPolicy"
      let automated ← pyGetE sync_policy_data "automated" (Py.dict [])
      let prune ← pyGetE automated "prune" (Py.bool false)
      let self_heal ← pyGetE automated "selfHeal" (Py.bool false)
      let allow_empty ← pyGetE automated "allowEmpty" (Py.bool false)
      let sync_options ← pyGetE sync_policy_data "syncOptions" Py.none
      let retry ← pyGetE sync_policy_data "retry" Py.none
      pure (some (⟨automated.truthy, prune, self_heal, allow_empty, sync_options,
        retry⟩ : ApplicationSyncPolicy))
    else pure Option.none
  let status ← if status_data.truthy then do
      let syncD ← pyGetE status_data "sync" (Py.dict [])
      let sync_status ← pyGetE syncD "status" (Py.str "Unknown")
      let healthD ← pyGetE status_data "health" (Py.dict [])
      let health_status ← pyGetE healthD "status" (Py.str "Unknown")
      let resources ← pyGetE status_data "resources" (Py.list [])
      let conditions ← pyGetE status_data "conditions" (Py.list [])
      let operation_state ← pyGetE status_data "operationState" Py.none
      pure (some (⟨sync_status, health_status, resources, conditions,
        operation_state⟩ : ApplicationStatus))
    else pure Option.none
  let name ← pyGetE metadata "name" (Py.str "")
  let project ← pyGetE spec "project" (Py.str "default")
  let nspace ← pyGetE metadata "namespace" (Py.str "argocd")
  pure ⟨name, project, source, destination, sync_policy, nspace, status⟩

/-!  Request executor (src/api/client.py).  The process-wide defaults read
from the environment at startup are an explicit `ClientConfig`; the single
outbound HTTP call is abstracted by an `HttpOutcome` argument: either a
response (status, parsed-JSON-or-ValueError, raw text) or one of the three
caught exception classes.  The result records whether an HTTP request was
actually issued (`attempted`). -/

structure ClientConfig where
  defaultToken : Option String
  defaultApiUrl : String
  verifySsl : Bool

structure HttpResponse where
  status : Nat
  json : Option Py
  text : String

/-- The outcome of the one transport call: a response, or a raised
`httpx.TimeoutException` / `httpx.RequestError` / other exception. -/
def HttpOutcome := Except PyExc HttpResponse

structure RequestResult where
  ok : Bool
  payload : Py
  attempted : Bool
  -- the outbound URL built at src/api/client.py:81 (`url = f"{api_url}/{path}"`);
  -- the empty string on the token-error path, which returns before building it
  url : String

/-- Response classification (src/api/client.py:103-121).  Runs inside the
`try` block, so any exception it raises is routed to the handlers. -/
def classifyResponse (resp : HttpResponse) : Except PyExc (Bool × Py) :=
  if resp.status ∈ [200, 201, 202, 204] then
    if resp.status == 204 then .ok (true, Py.dict [("status", Py.str "success")])
    else
      match resp.json with
      | some j => .ok (true, j)
      | Option.none =>
        .ok (true, Py.dict [("status", Py.str "success"), ("raw_response", Py.str resp.text)])
  else
    let error_message := "API request failed: " ++ toString resp.status
    match resp.json with
    | some error_data =>
      -- if "error" in error_data: append error_data["error"] to the message
      match pyInStr "error" error_data with
      | .error e => .error e
      | .ok hasErr =>
        if hasErr then
          match pyGetItem error_data "error" with
          | .error e => .error e
          | .ok v =>
            .ok (false, Py.dict [("error", Py.str (error_message ++ " - " ++ pyStr v)),
              ("details", error_data)])
        else
          .ok (false, Py.dict [("error", Py.str error_message), ("details", error_data)])
    | Option.none =>
      let error_text := if resp.text != "" then (resp.text.take 200) else ""
      .ok (false, Py.dict [("error", Py.str (error_message ++ " - " ++ error_text))])

/-- Token fallback (src/api/client.py:57-58): `if not token: token = DEFAULT_TOKEN`. -/
def resolveToken (cfg : ClientConfig) (token : Option String) : Option String :=
  if !optStrTruthy token then cfg.defaultToken else token

/-- `make_api_request` (src/api/client.py:31-132). -/
def make_api_request (cfg : ClientConfig) (path : String) (method : String)
    (token : Option String) (api_url : Option String) (params data : Py)
    (timeout : Nat) (verify_ssl : Option Bool) (outcome : HttpOutcome) : RequestResult :=
  let token := resolveToken cfg token
  if !optStrTruthy token then
    ⟨false, Py.dict [("error", Py.str
      "Token is required. Please set the ARGOCD_TOKEN environment variable.")], false, ""⟩
  else
    let tokenStr := token.getD ""
    let api_url := if !optStrTruthy api_url then cfg.defaultApiUrl else api_url.getD ""
    let _ssl_verify := verify_ssl.getD cfg.verifySsl
    let url := api_url ++ "/" ++ path
    if method ∉ ["GET", "POST", "PUT", "PATCH", "DELETE"] then
      -- reached inside the `async with` block, after `url` is built, but before
      -- any request is sent
      ⟨false, Py.dict [("error", Py.str ("Unsupported method: " ++ method))], false, url⟩
    else
      match (do let resp ← outcome; classifyResponse resp : Except PyExc (Bool × Py)) with
      | .ok (ok, payload) => ⟨ok, payload, true, url⟩
      | .error .timeout =>
        ⟨false, Py.dict [("error", Py.str
          ("Request timed out after " ++ toString timeout ++ " seconds"))], true, url⟩
      | .error (.requestError msg) =>
        ⟨false, Py.dict [("error", Py.str ("Request error: " ++ msg))], true, url⟩
      | .error (.other msg) =>
        -- except Exception: redact the token from the message before returning
        let error_message := if containsStr msg tokenStr then
            msg.replace tokenStr "[REDACTED]" else msg
        ⟨false, Py.dict [("error", Py.str ("Request error: " ++ error_message))], true, url⟩

/-!  Tool layer (src/tools/applications.py, session.py, settings.py,
version.py).  Each tool's single effect — the call to `make_api_request` —
is abstracted by passing its `(success, data)` result as an argument;
query-parameter building does not influence any returned value and is not
modelled.  A tool that raises is an `Except.error`. -/

/-- `list_applications` (src/tools/applications.py:18-60), response handling. -/
def list_applications (success : Bool) (data : Py) : Except PyExc Py :=
  if !success then
    (pyGetE data "error" (Py.str "Failed to retrieve applications")).map
      (fun e => Py.dict [("error", e)])
  else .ok data

/-- `get_application_details` (src/tools/applications.py:63-98), response handling. -/
def get_application_details (name : String) (success : Bool) (data : Py) :
    Except PyExc Py :=
  if success then .ok data
  else
    (pyGetE data "error" (Py.str ("Failed to get details for application " ++
      squot ++ name ++ squot))).map (fun e => Py.dict [("error", e)])

/-- The Application built by `create_application`
(src/tools/applications.py:137-156). -/
def create_application_app (name project repo_url path dest_server dest_namespace
    revision : String) (automated_sync prune self_heal : Bool) (nspace : String) :
    Application :=
  ⟨Py.str name, Py.str project,
    ⟨Py.str repo_url, Py.str path, Py.str revision, Py.none, Py.none, Py.none⟩,
    ⟨Py.str dest_server, Py.str dest_namespace, Py.none⟩,
    -- lines 150-153: if automated_sync: app.sync_policy = ApplicationSyncPolicy(...)
    (if automated_sync then
      some ⟨true, Py.bool prune, Py.bool self_heal, Py.bool false, Py.list [], Py.none⟩
    else Option.none),
    -- lines 155-156: if namespace: app.namespace = namespace
    (if nspace != "" then Py.str nspace else Py.str "argocd"),
    Option.none⟩

/-- `create_application` (src/tools/applications.py:101-177): returns the
JSON body sent on the POST together with the mapping returned to the caller. -/
def create_application (name project repo_url path dest_server dest_namespace
    revision : String) (automated_sync prune self_heal : Bool) (nspace : String)
    (validate upsert : Bool) (postResult : Bool × Py) : Except PyExc (Py × Py) := do
  let app := create_application_app name project repo_url path dest_server
    dest_namespace revision automated_sync prune self_heal nspace
  let data ← application_to_api_format app
  let (success, response) := postResult
  if success then pure (data, response)
  else do
    let e ← pyGetE response "error" (Py.str "Failed to create application")
    pure (data, Py.dict [("error", e)])

/-- The `if <truthy>: d[k] = v` one-liners of the update flow. -/
def ifSet (c : Bool) (p : Py) (k : String) (v : Py) : Except PyExc Py :=
  if c then pySetItem p k v else pure p

/-- Lines 221-223 of src/tools/applications.py:
`if project: app_data["spec"]["project"] = project`. -/
def upd_project_block (project : Option String) (app_data : Py) : Except PyExc Py :=
  if optStrTruthy project then do
    let spec ← pyGetItem app_data "spec"
    let spec ← pySetItem spec "project" (Py.str (project.getD ""))
    pySetItem app_data "spec" spec
  else pure app_data

/-- Lines 225-234: update the source fields when any of repo_url, path,
revision is truthy. -/
def upd_source_block (repo_url path revision : Option String) (app_data : Py) :
    Except PyExc Py :=
  if optStrTruthy repo_url || optStrTruthy path || optStrTruthy revision then do
    let spec ← pyGetItem app_data "spec"
    let source ← pyGetE spec "source" (Py.dict [])
    let source ← ifSet (optStrTruthy repo_url) source "repoURL" (Py.str (repo_url.getD ""))
    let source ← ifSet (optStrTruthy path) source "path" (Py.str (path.getD ""))
    let source ← ifSet (optStrTruthy revision) source "targetRevision"
      (Py.str (revision.getD ""))
    let spec ← pySetItem spec "source" source
    pySetItem app_data "spec" spec
  else pure app_data

/-- Lines 236-243: update the destination fields when any of dest_server,
dest_namespace is truthy. -/
def upd_dest_block (dest_server dest_namespace : Option String) (app_data : Py) :
    Except PyExc Py :=
  if optStrTruthy dest_server || optStrTruthy dest_namespace then do
    let spec ← pyGetItem app_data "spec"
    let destination ← pyGetE spec "destination" (Py.dict [])
    let destination ← ifSet (optStrTruthy dest_server) destination "server"
      (Py.str (dest_server.getD ""))
    let destination ← ifSet (optStrTruthy dest_namespace) destination "namespace"
      (Py.str (dest_namespace.getD ""))
    let spec ← pySetItem spec "destination" destination
    pySetItem app_data "spec" spec
  else pure app_data

/-- Lines 245-268: the sync-policy block.  The in-place dict mutations are
written out as functional updates; the `automated` dict fetched or created by
lines 247-259 stays aliased into `sync_policy` exactly when the source keeps
it attached (`attached`), so the prune/selfHeal writes of lines 262-266 are
propagated back into `sync_policy` in exactly those cases. -/
def upd_sync_block (automated_sync prune self_heal : Option Bool) (app_data : Py) :
    Except PyExc Py :=
  if automated_sync.isSome || prune.isSome || self_heal.isSome then do
    let spec ← pyGetItem app_data "spec"
    let sync_policy ← pyGetE spec "syncPolicy" (Py.dict [])
    let hasAuto ← pyInStr "automated" sync_policy
    let automated ← if hasAuto then pyGetE sync_policy "automated" (Py.dict [])
      else pure Py.none
    let step ← if automated_sync = some true && automated.isNone then
        pure (sync_policy, Py.dict [], true)
      else if automated_sync = some false && !automated.isNone then do
        let sp ← pyDelItem sync_policy "automated"
        pure (sp, automated, false)
      else pure (sync_policy, automated, hasAuto)
    let (sync_policy, automated, attached) := step
    let automated ← ifSet (!automated.isNone && prune.isSome) automated "prune"
      (Py.bool (prune.getD false))
    let automated ← ifSet (!automated.isNone && self_heal.isSome) automated "selfHeal"
      (Py.bool (self_heal.getD false))
    let sync_policy ← ifSet attached sync_policy "automated" automated
    let spec ← pySetItem spec "syncPolicy" sync_policy
    pySetItem app_data "spec" spec
  else pure app_data

/-- `update_application` (src/tools/applications.py:180-287): GET-then-mutate
-then-PUT.  `getResult` and `putResult` are the two request-layer results. -/
def update_application (name : String)
    (project repo_url path dest_server dest_namespace revision : Option String)
    (automated_sync prune self_heal : Option Bool) (validate : Bool)
    (getResult putResult : Bool × Py) : Except PyExc Py := do
  let (success, app_data) := getResult
  if !success then
    (pyGetE app_data "error" (Py.str ("Failed to get current application details for " ++
      squot ++ name ++ squot))).map (fun e => Py.dict [("error", e)])
  else do
    let app_data ← upd_project_block project app_data
    let app_data ← upd_source_block repo_url path revision app_data
    let app_data ← upd_dest_block dest_server dest_namespace app_data
    let app_data ← upd_sync_block automated_sync prune self_heal app_data
    let _ := app_data   -- app_data is the PUT body
    let (success2, response) := putResult
    if success2 then pure response
    else do
      let e ← pyGetE response "error" (Py.str ("Failed to update application " ++
        squot ++ name ++ squot))
      pure (Py.dict [("error", e)])

/-- `delete_application` (src/tools/applications.py:290-333), response handling. -/
def delete_application (name : String) (cascade : Bool) (propagation_policy nspace : String)
    (result : Bool × Py) : Except PyExc Py :=
  let (success, data) := result
  if success then
    .ok (Py.dict [("status", Py.str "success"),
      ("message", Py.str ("Application " ++ squot ++ name ++ squot ++ " deleted successfully")),
      ("details", data)])
  else
    (pyGetE data "error" (Py.str ("Failed to delete application " ++
      squot ++ name ++ squot))).map
      (fun e => Py.dict [("error", e), ("details", data)])

/-- `sync_application` (src/tools/applications.py:336-384): returns the JSON
body sent on the POST together with the mapping returned to the caller. -/
def sync_application (name revision : String) (prune dry_run : Bool)
    (strategy : String) (resources : Py) (nspace : String) (postResult : Bool × Py) :
    Except PyExc (Py × Py) :=
  let d := Py.dict [("name", Py.str name), ("prune", Py.bool prune),
    ("dryRun", Py.bool dry_run)]
  let d := if revision != "" then pyDictSet d "revision" (Py.str revision) else d
  let d := if strategy != "" && (strategy == "apply" || strategy == "hook") then
      pyDictSet d "strategy" (if strategy == "hook" then Py.dict [("hook", Py.dict [])]
        else Py.dict [("apply", Py.dict [])])
    else d
  let d := if resources.truthy then pyDictSet d "resources" resources else d
  let (success, response) := postResult
  if success then .ok (d, response)
  else
    (pyGetE response "error" (Py.str ("Failed to sync application " ++
      squot ++ name ++ squot))).map (fun e => (d, Py.dict [("error", e)]))

/-- `get_user_info` (src/tools/session.py), response handling. -/
def get_user_info (success : Bool) (data : Py) : Except PyExc Py :=
  if success then .ok data
  else
    (pyGetE data "error" (Py.str "Failed to retrieve user information")).map
      (fun e => Py.dict [("error", e)])

/-- `get_settings` (src/tools/settings.py), response handling. -/
def get_settings (success : Bool) (data : Py) : Except PyExc Py :=
  if success then .ok data
  else
    (pyGetE data "error" (Py.str "Failed to retrieve ArgoCD settings")).map
      (fun e => Py.dict [("error", e)])

/-- `get_plugins` (src/tools/settings.py), response handling. -/
def get_plugins (success : Bool) (data : Py) : Except PyExc Py :=
  if success then .ok data
  else
    (pyGetE data "error" (Py.str "Failed to retrieve ArgoCD plugins")).map
      (fun e => Py.dict [("error", e)])

/-- `get_version` (src/tools/version.py), response handling. -/
def get_version (success : Bool) (data : Py) : Except PyExc Py :=
  if success then .ok data
  else
    (pyGetE data "error" (Py.str "Failed to retrieve ArgoCD version information")).map
      (fun e => Py.dict [("error", e)])

/-!  Helper lemmas about the dict primitives. -/

theorem pyLookup_assocSet_self (kvs : List (String × Py)) (k : String) (v : Py) :
    pyLookup (pyAssocSet kvs k v) k = some v := by
  induction kvs with
  | nil => simp [pyAssocSet, pyLookup]
  | cons kv rest ih =>
    obtain ⟨k1, v1⟩ := kv
    by_cases h : k1 = k <;> simp [pyAssocSet, pyLookup, h, ih]

theorem pyLookup_assocSet_ne (kvs : List (String × Py)) (k : String) (v : Py)
    (k' : String) (h : k ≠ k') : pyLookup (pyAssocSet kvs k v) k' = pyLookup kvs k' := by
  induction kvs with
  | nil => simp [pyAssocSet, pyLookup, h]
  | cons kv rest ih =>
    obtain ⟨k1, v1⟩ := kv
    by_cases h1 : k1 = k
    · subst h1; simp [pyAssocSet, pyLookup, h, ih]
    · simp [pyAssocSet, pyLookup, h1, ih]

theorem pyGetE_ite (c : Prop) [Decidable c] (a b : Py) (k : String) (d : Py) :
    pyGetE (if c then a else b) k d = if c then pyGetE a k d else pyGetE b k d := by
  split <;> rfl

theorem pyDictSet_ite (c : Prop) [Decidable c] (a b : Py) (k : String) (v : Py) :
    pyDictSet (if c then a else b) k v = if c then pyDictSet a k v else pyDictSet b k v := by
  split <;> rfl

theorem pyGetE_pyDictSet_eq (kvs : List (String × Py)) (k : String) (v d : Py) :
    pyGetE (pyDictSet (Py.dict kvs) k v) k d = .ok v := by
  simp [pyDictSet, pyGetE, pyLookup_assocSet_self]

theorem pyGetE_pyDictSet_ne (p : Py) (k : String) (v : Py) (k' : String) (d : Py)
    (h : k ≠ k') : pyGetE (pyDictSet p k v) k' d = pyGetE p k' d := by
  cases p <;> simp [pyDictSet, pyGetE, pyLookup_assocSet_ne _ _ _ _ h]

/-- `p.isNone = true` determines the value. -/
theorem Py.eq_none_of_isNone {p : Py} (h : p.isNone = true) : p = Py.none := by
  cases p <;> simp_all [Py.isNone]

theorem exceptBind_ok {α β : Type} (x : α) (f : α → Except PyExc β) :
    (Except.ok x >>= f) = f x := rfl

theorem exceptBind_error {α β : Type} (e : PyExc) (f : α → Except PyExc β) :
    ((Except.error e : Except PyExc α) >>= f) = Except.error e := rfl

theorem exceptPure_def {α : Type} (x : α) : (pure x : Except PyExc α) = Except.ok x := rfl

theorem optStrTruthy_some_empty : optStrTruthy (some "") = false := rfl

/-!  Claim theorems. -/

/-- C1: the spec requires that a wire object whose `spec.syncPolicy.automated`
key is present with the empty object as its value maps to a SyncPolicy with
`automated=true` and all sub-flags false.  The code computes
`automated=bool(automated)`, and Python's `bool` of an empty dict is `False`,
so the conversion yields `automated=false` instead: the code contradicts the
documented intent (an ArgoCD server reports flagless automated sync exactly as
an empty `automated` object). -/
theorem c1_automated_empty_object_yields_false :
    api_format_to_application (Py.dict [("spec", Py.dict [("syncPolicy",
      Py.dict [("automated", Py.dict [])])])]) =
    Except.ok ⟨Py.str "", Py.str "default",
      ⟨Py.str "", Py.str "", Py.str "HEAD", Py.none, Py.none, Py.none⟩,
      ⟨Py.str "", Py.str "", Py.none⟩,
      some ⟨false, Py.bool false, Py.bool false, Py.bool false, Py.none, Py.none⟩,
      Py.str "argocd", Option.none⟩ := by
  rfl

/-- C5: the spec says every field of the converted Application holds a value of
its declared type, in particular that the sync-option list defaults to a list
when `spec.syncPolicy` is present but `syncOptions` is absent.  The code passes
`sync_policy_data.get("syncOptions")` with no default, so the field holds
Python `None` — not a list — contradicting the dataclass's own declared
`List[str]` type and `default_factory=list` default.  (`metadata.name` and
`spec.project` do take their documented defaults `""` and `"default"`.) -/
theorem c5_missing_sync_options_yields_none :
    api_format_to_application (Py.dict [("spec", Py.dict [("syncPolicy", Py.dict [])])]) =
    Except.ok ⟨Py.str "", Py.str "default",
      ⟨Py.str "", Py.str "", Py.str "HEAD", Py.none, Py.none, Py.none⟩,
      ⟨Py.str "", Py.str "", Py.none⟩,
      some ⟨false, Py.bool false, Py.bool false, Py.bool false, Py.none, Py.none⟩,
      Py.str "argocd", Option.none⟩ := by
  rfl

/-- C2: the spec requires that no caught fault may return a payload containing
the literal token.  The `except httpx.RequestError` branch returns `str(e)`
verbatim with no redaction, so a transport-error message containing the token
escapes into the returned payload (the redaction only runs in the generic
`except Exception` branch). -/
theorem c2_request_error_branch_leaks_token :
    (make_api_request ⟨some "sk-tok", "http://localhost:8080/api/v1", true⟩
      "applications" "GET" Option.none Option.none (Py.dict []) (Py.dict []) 30
      Option.none (Except.error (PyExc.requestError "Connection error for token sk-tok"))).payload
      = Py.dict [("error", Py.str "Request error: Connection error for token sk-tok")]
    ∧ containsStr "Request error: Connection error for token sk-tok" "sk-tok" = true := by
  exact ⟨rfl, by decide⟩

/-- C6 counterexample: the claim states the exact payload
`(false, error = "unsupported method: TRACE")`, but the code's message is
capitalized: `"Unsupported method: TRACE"`, so the claimed payload is not the
one returned. -/
theorem c6_counterexample_unsupported_method_message :
    make_api_request ⟨some "t", "http://localhost:8080/api/v1", true⟩ "applications"
      "TRACE" Option.none Option.none (Py.dict []) (Py.dict []) 30 Option.none
      (Except.error PyExc.timeout) =
      ⟨false, Py.dict [("error", Py.str "Unsupported method: TRACE")], false,
        "http://localhost:8080/api/v1/applications"⟩
    ∧ (make_api_request ⟨some "t", "http://localhost:8080/api/v1", true⟩ "applications"
      "TRACE" Option.none Option.none (Py.dict []) (Py.dict []) 30 Option.none
      (Except.error PyExc.timeout)).payload ≠
      Py.dict [("error", Py.str "unsupported method: TRACE")] := by
  refine ⟨rfl, ?_⟩
  intro h
  simp only [make_api_request, resolveToken, optStrTruthy] at h
  simp at h

/-- C6 amended: with a truthy resolved token and a method outside
\x7bGET, POST, PUT, PATCH, DELETE\x7d, the executor returns
`(false, \x7berror: "Unsupported method: <method>"\x7d)` — the message is
capitalized — and no network request is attempted. -/
theorem c6_unsupported_method_returns_error_without_io
    (cfg : ClientConfig) (path method : String) (token api_url : Option String)
    (params data : Py) (timeout : Nat) (verify_ssl : Option Bool) (outcome : HttpOutcome)
    (htok : optStrTruthy (resolveToken cfg token) = true)
    (hm : method ∉ ["GET", "POST", "PUT", "PATCH", "DELETE"]) :
    make_api_request cfg path method token api_url params data timeout verify_ssl outcome =
      ⟨false, Py.dict [("error", Py.str ("Unsupported method: " ++ method))], false,
        (if !optStrTruthy api_url then cfg.defaultApiUrl else api_url.getD "") ++
          "/" ++ path⟩ := by
  simp [make_api_request, htok, hm]

/-- C6 witness: the amended theorem at method `"TRACE"`. -/
theorem c6_witness :
    make_api_request ⟨some "t", "u", true⟩ "applications" "TRACE" Option.none
      Option.none (Py.dict []) (Py.dict []) 30 Option.none (Except.error PyExc.timeout) =
      ⟨false, Py.dict [("error", Py.str ("Unsupported method: " ++ "TRACE"))], false,
        "u/applications"⟩ :=
  c6_unsupported_method_returns_error_without_io _ _ _ _ _ _ _ _ _ _
    (by decide) (by decide)

/-- C9: passing `token=""` (resp. `api_url=""`) behaves exactly as omitting the
argument, because `if not token:` / `if not api_url:` treats every falsy value
as absent and falls back to the process-wide default.  The full results are
equal (including the outbound URL the executor builds), and with `api_url=""`
the URL used is the default base URL joined with the path. -/
theorem c9_empty_string_args_fall_back_to_defaults
    (cfg : ClientConfig) (path method : String) (params data : Py) (timeout : Nat)
    (verify_ssl : Option Bool) (outcome : HttpOutcome) :
    (∀ api_url, make_api_request cfg path method (some "") api_url params data
        timeout verify_ssl outcome =
      make_api_request cfg path method Option.none api_url params data
        timeout verify_ssl outcome)
    ∧ (∀ token, make_api_request cfg path method token (some "") params data
        timeout verify_ssl outcome =
      make_api_request cfg path method token Option.none params data
        timeout verify_ssl outcome)
    ∧ (∀ token, optStrTruthy (resolveToken cfg token) = true →
      (make_api_request cfg path method token (some "") params data timeout
        verify_ssl outcome).url = cfg.defaultApiUrl ++ "/" ++ path) := by
  refine ⟨fun _ => rfl, fun _ => rfl, ?_⟩
  intro token htok
  simp only [make_api_request, htok, Bool.not_true, Bool.false_eq_true, if_false,
    optStrTruthy_some_empty, Bool.not_false, if_true]
  split
  · rfl
  · split <;> rfl

/-- C9 witness: with `api_url=""` and the default-configured token, the
executor's outbound URL is the default base URL joined with the path. -/
theorem c9_witness :
    (make_api_request ⟨some "t", "http://localhost:8080/api/v1", true⟩ "applications"
      "GET" Option.none (some "") (Py.dict []) (Py.dict []) 30 Option.none
      (Except.error PyExc.timeout)).url =
      "http://localhost:8080/api/v1" ++ "/" ++ "applications" :=
  (c9_empty_string_args_fall_back_to_defaults
    ⟨some "t", "http://localhost:8080/api/v1", true⟩ "applications" "GET"
    (Py.dict []) (Py.dict []) 30 Option.none (Except.error PyExc.timeout)).2.2
    Option.none (by decide)

theorem pyLookup_any_eq_true {kvs : List (String × Py)} {k : String} {v : Py}
    (h : pyLookup kvs k = some v) : kvs.any (fun kv => kv.1 == k) = true := by
  induction kvs with
  | nil => simp [pyLookup] at h
  | cons kv rest ih =>
    obtain ⟨k1, v1⟩ := kv
    by_cases h1 : k1 = k
    · simp [h1]
    · simp only [pyLookup, if_neg h1] at h
      simp [ih h, h1]

/-- C7: on a non-2xx response whose body parses to a JSON object containing an
`error` field, the executor returns `ok=false` with the upstream error text
appended to `"API request failed: <status>"` and the parsed body under
`details`; instantiated at 404 with body `{"error": "app not found"}` this is
exactly the payload the claim states (see the witness). -/
theorem c7_non2xx_error_body_is_appended
    (cfg : ClientConfig) (path method : String) (token api_url : Option String)
    (params data : Py) (timeout : Nat) (verify_ssl : Option Bool)
    (st : Nat) (kvs : List (String × Py)) (v : Py) (txt : String)
    (htok : optStrTruthy (resolveToken cfg token) = true)
    (hm : method ∈ ["GET", "POST", "PUT", "PATCH", "DELETE"])
    (hst : ¬ (200 ≤ st ∧ st ≤ 299))
    (hv : pyLookup kvs "error" = some v) :
    make_api_request cfg path method token api_url params data timeout verify_ssl
      (Except.ok ⟨st, some (Py.dict kvs), txt⟩) =
    ⟨false, Py.dict [("error",
        Py.str ("API request failed: " ++ toString st ++ " - " ++ pyStr v)),
      ("details", Py.dict kvs)], true,
      (if !optStrTruthy api_url then cfg.defaultApiUrl else api_url.getD "") ++
        "/" ++ path⟩ := by
  have e1 : st ≠ 200 := fun h => hst (by omega)
  have e2 : st ≠ 201 := fun h => hst (by omega)
  have e3 : st ≠ 202 := fun h => hst (by omega)
  have e4 : st ≠ 204 := fun h => hst (by omega)
  have hany := pyLookup_any_eq_true hv
  simp [make_api_request, classifyResponse, htok, hm, e1, e2, e3, e4,
    exceptBind_ok, exceptBind_error, pyInStr, hany, pyGetItem, hv]

/-- C7 witness: a 404 response with body `{"error": "app not found"}`
yields the exact payload the claim states. -/
theorem c7_witness :
    make_api_request ⟨some "t", "u", true⟩ "applications/guestbook" "GET" Option.none
      Option.none (Py.dict []) (Py.dict []) 30 Option.none
      (Except.ok ⟨404, some (Py.dict [("error", Py.str "app not found")]), ""⟩) =
    ⟨false, Py.dict [("error", Py.str "API request failed: 404 - app not found"),
      ("details", Py.dict [("error", Py.str "app not found")])], true,
      "u/applications/guestbook"⟩ :=
  c7_non2xx_error_body_is_appended ⟨some "t", "u", true⟩ "applications/guestbook" "GET"
    Option.none Option.none (Py.dict []) (Py.dict []) 30 Option.none 404
    [("error", Py.str "app not found")] (Py.str "app not found") ""
    (by decide) (by decide) (by omega) rfl

/-- C8: for every Application, with or without a Status, the wire object
produced by `application_to_api_format` contains no `status` key (the
serializer only ever emits `metadata` and `spec`). -/
theorem c8_toWire_never_emits_status (app : Application) (w : Py)
    (hw : application_to_api_format app = Except.ok w) :
    pyHasKeyB w "status" = false := by
  rcases happ : app.sync_policy with _ | sp
  · simp only [application_to_api_format, happ] at hw
    injection hw with h
    subst h
    rfl
  · cases hso : sp.sync_options.truthy with
    | false =>
      simp only [application_to_api_format, happ, hso, Bool.false_eq_true, if_false,
        pyLookup, Option.getD, reduceIte] at hw
      injection hw with h
      subst h
      rfl
    | true =>
      cases hl : pyListE sp.sync_options with
      | error e =>
        simp [application_to_api_format, happ, hso, hl, Except.map] at hw
      | ok l =>
        simp only [application_to_api_format, happ, hso, hl, Except.map, if_true,
          pyLookup, Option.getD, reduceIte] at hw
        injection hw with h
        subst h
        rfl

/-- C8 witness: the theorem applied to an Application that does carry a
Status (and a full sync policy). -/
theorem c8_witness :
    pyHasKeyB ((application_to_api_format ⟨Py.str "a", Py.str "p",
      ⟨Py.str "r", Py.str "pa", Py.str "HEAD", Py.none, Py.none, Py.none⟩,
      ⟨Py.str "s", Py.str "ns", Py.none⟩,
      some ⟨true, Py.bool true, Py.bool false, Py.bool false,
        Py.list [Py.str "Validate=false"], Py.none⟩,
      Py.str "argocd",
      some ⟨Py.str "Synced", Py.str "Healthy", Py.list [], Py.list [],
        Py.none⟩⟩).toOption.getD Py.none) "status" = false :=
  c8_toWire_never_emits_status ⟨Py.str "a", Py.str "p",
    ⟨Py.str "r", Py.str "pa", Py.str "HEAD", Py.none, Py.none, Py.none⟩,
    ⟨Py.str "s", Py.str "ns", Py.none⟩,
    some ⟨true, Py.bool true, Py.bool false, Py.bool false,
      Py.list [Py.str "Validate=false"], Py.none⟩,
    Py.str "argocd",
    some ⟨Py.str "Synced", Py.str "Healthy", Py.list [], Py.list [], Py.none⟩⟩ _ rfl

/-- C10: with `automated_sync=false`, `create_application` ignores the `prune`
and `self_heal` arguments entirely (the full tool output is unchanged by
them), attaches no sync policy to the constructed Application, and the JSON
body sent upstream has a `spec` containing no `syncPolicy` key at all. -/
theorem c10_create_without_automated_sync_has_no_sync_policy
    (name project repo_url path dest_server dest_namespace revision : String)
    (p1 s1 p2 s2 : Bool) (nspace : String) (validate upsert : Bool)
    (postResult : Bool × Py) :
    create_application name project repo_url path dest_server dest_namespace revision
      false p1 s1 nspace validate upsert postResult =
    create_application name project repo_url path dest_server dest_namespace revision
      false p2 s2 nspace validate upsert postResult
    ∧ (create_application_app name project repo_url path dest_server dest_namespace
        revision false p1 s1 nspace).sync_policy = Option.none
    ∧ ∀ resp : Py, ∃ body : Py,
        create_application name project repo_url path dest_server dest_namespace revision
          false p1 s1 nspace validate upsert (true, resp) = Except.ok (body, resp)
        ∧ pyGetItem body "spec" = Except.ok (Py.dict [("project", Py.str project),
            ("source", Py.dict [("repoURL", Py.str repo_url), ("path", Py.str path),
              ("targetRevision", Py.str revision)]),
            ("destination", Py.dict [("server", Py.str dest_server),
              ("namespace", Py.str dest_namespace)])])
        ∧ pyHasKeyB (Py.dict [("project", Py.str project),
            ("source", Py.dict [("repoURL", Py.str repo_url), ("path", Py.str path),
              ("targetRevision", Py.str revision)]),
            ("destination", Py.dict [("server", Py.str dest_server),
              ("namespace", Py.str dest_namespace)])]) "syncPolicy" = false := by
  exact ⟨rfl, rfl, fun resp => ⟨_, rfl, rfl, rfl⟩⟩

theorem Py.none_or_isNone_false (p : Py) : p = Py.none ∨ p.isNone = false := by
  cases p <;> simp [Py.isNone]

theorem Py.isNone_none : Py.none.isNone = true := rfl

theorem Py.truthy_none : Py.none.truthy = false := rfl

theorem Py.truthy_str (s : String) : (Py.str s).truthy = (s != "") := rfl

/-- Embeds a typed `Optional[str]` dataclass value. -/
def pyOfOptStr : Option String → Py
  | Option.none => Py.none
  | some s => Py.str s

/-- C4 counterexample: an Application whose destination has the (typed, valid)
name `""` does not round-trip: `toWire` emits `name` only when it is truthy,
so the empty-string name is dropped and `fromWire` returns `None` for it. -/
theorem c4_counterexample_empty_destination_name :
    (application_to_api_format ⟨Py.str "a", Py.str "p",
      ⟨Py.str "r", Py.str "pa", Py.str "HEAD", Py.none, Py.none, Py.none⟩,
      ⟨Py.str "s", Py.str "ns", Py.str ""⟩, Option.none, Py.str "argocd",
      Option.none⟩ >>= api_format_to_application) =
    Except.ok ⟨Py.str "a", Py.str "p",
      ⟨Py.str "r", Py.str "pa", Py.str "HEAD", Py.none, Py.none, Py.none⟩,
      ⟨Py.str "s", Py.str "ns", Py.none⟩, Option.none, Py.str "argocd", Option.none⟩
    ∧ Py.none ≠ Py.str "" := by
  exact ⟨rfl, by simp⟩

/-- C4 amended: for every Application with a Source and a Destination whose
destination name is not the empty string (None or non-empty are fine — the
serializer drops a falsy name), whenever `toWire` succeeds, `fromWire` of its
output reproduces name, project, the whole Source and the whole Destination
exactly. -/
theorem c4_roundtrip_on_modeled_fields
    (nm proj repoURL pth rev server ns : String)
    (helm kustomize directory : Py) (dname : Option String)
    (sp : Option ApplicationSyncPolicy) (nsp : Py) (st : Option ApplicationStatus)
    (w : Py)
    (hdn : dname ≠ some "")
    (hw : application_to_api_format ⟨Py.str nm, Py.str proj,
        ⟨Py.str repoURL, Py.str pth, Py.str rev, helm, kustomize, directory⟩,
        ⟨Py.str server, Py.str ns, pyOfOptStr dname⟩, sp, nsp, st⟩ = Except.ok w) :
    ∃ app' : Application, api_format_to_application w = Except.ok app'
      ∧ app'.name = Py.str nm ∧ app'.project = Py.str proj
      ∧ app'.source = ⟨Py.str repoURL, Py.str pth, Py.str rev, helm, kustomize, directory⟩
      ∧ app'.destination = ⟨Py.str server, Py.str ns, pyOfOptStr dname⟩ := by
  have hcore : dname = Option.none ∨ ∃ s : String, dname = some s ∧ (s != "") = true := by
    rcases dname with _ | s
    · exact Or.inl rfl
    · exact Or.inr ⟨s, rfl, by simpa [bne_iff_ne] using fun h => hdn (by rw [h])⟩
  rcases sp with _ | sp
  · rcases hcore with rfl | ⟨s, rfl, hs⟩ <;>
    (rcases Py.none_or_isNone_false helm with rfl | hh) <;>
    (rcases Py.none_or_isNone_false kustomize with rfl | hk) <;>
    (rcases Py.none_or_isNone_false directory with rfl | hd) <;>
    (simp only [application_to_api_format, pyOfOptStr, Py.isNone_none, Py.truthy_none,
      Py.truthy_str, pyLookup, Option.getD, reduceIte, String.reduceEq,
      Except.ok.injEq, reduceCtorEq, Bool.false_eq_true, Bool.true_eq_false, if_false, if_true, *] at hw) <;>
    (subst hw) <;>
    exact ⟨_, rfl, rfl, rfl, rfl, rfl⟩
  · cases hso : sp.sync_options.truthy
    · rcases hcore with rfl | ⟨s, rfl, hs⟩ <;>
      (cases hsa : sp.automated) <;> (cases hr : sp.retry.truthy) <;>
      (rcases Py.none_or_isNone_false helm with rfl | hh) <;>
      (rcases Py.none_or_isNone_false kustomize with rfl | hk) <;>
      (rcases Py.none_or_isNone_false directory with rfl | hd) <;>
      (simp only [application_to_api_format, pyOfOptStr, Py.isNone_none, Py.truthy_none,
        Py.truthy_str, pyLookup, Option.getD, reduceIte, String.reduceEq,
        Except.ok.injEq, reduceCtorEq, Bool.false_eq_true, Bool.true_eq_false, if_false, if_true, *] at hw) <;>
      (subst hw) <;>
      exact ⟨_, rfl, rfl, rfl, rfl, rfl⟩
    · cases hl : pyListE sp.sync_options with
      | error e =>
        simp only [application_to_api_format, hso, hl, Except.map, reduceIte,
          reduceCtorEq, if_true] at hw
      | ok l =>
        rcases hcore with rfl | ⟨s, rfl, hs⟩ <;>
        (cases hsa : sp.automated) <;> (cases hr : sp.retry.truthy) <;>
        (rcases Py.none_or_isNone_false helm with rfl | hh) <;>
        (rcases Py.none_or_isNone_false kustomize with rfl | hk) <;>
        (rcases Py.none_or_isNone_false directory with rfl | hd) <;>
        (simp only [application_to_api_format, pyOfOptStr, Py.isNone_none, Py.truthy_none,
          Py.truthy_str, Except.map, pyLookup, Option.getD, reduceIte, String.reduceEq,
          Except.ok.injEq, reduceCtorEq, Bool.false_eq_true, Bool.true_eq_false, if_false, if_true, *] at hw) <;>
        (subst hw) <;>
        exact ⟨_, rfl, rfl, rfl, rfl, rfl⟩

/-- C4 witness: the round-trip theorem at a concrete Application with a
non-empty destination name. -/
theorem c4_witness :
    ∃ app' : Application, api_format_to_application (Py.dict [("metadata",
        Py.dict [("name", Py.str "a"), ("namespace", Py.str "argocd")]),
      ("spec", Py.dict [("project", Py.str "p"),
        ("source", Py.dict [("repoURL", Py.str "r"), ("path", Py.str "pa"),
          ("targetRevision", Py.str "HEAD")]),
        ("destination", Py.dict [("server", Py.str "s"), ("namespace", Py.str "ns"),
          ("name", Py.str "d")])])]) = Except.ok app'
      ∧ app'.name = Py.str "a" ∧ app'.project = Py.str "p"
      ∧ app'.source = ⟨Py.str "r", Py.str "pa", Py.str "HEAD", Py.none, Py.none, Py.none⟩
      ∧ app'.destination = ⟨Py.str "s", Py.str "ns", pyOfOptStr (some "d")⟩ :=
  c4_roundtrip_on_modeled_fields "a" "p" "r" "pa" "HEAD" "s" "ns"
    Py.none Py.none Py.none (some "d") Option.none (Py.str "argocd") Option.none
    (Py.dict [("metadata",
        Py.dict [("name", Py.str "a"), ("namespace", Py.str "argocd")]),
      ("spec", Py.dict [("project", Py.str "p"),
        ("source", Py.dict [("repoURL", Py.str "r"), ("path", Py.str "pa"),
          ("targetRevision", Py.str "HEAD")]),
        ("destination", Py.dict [("server", Py.str "s"), ("namespace", Py.str "ns"),
          ("name", Py.str "d")])])]) (by decide) rfl


/-!  Infrastructure for C3: shapes of request-layer results and the tool
layer's no-raise discipline. -/

theorem pyLookup_none_any_false {kvs : List (String × Py)} {k : String}
    (h : pyLookup kvs k = Option.none) : kvs.any (fun kv => kv.1 == k) = false := by
  induction kvs with
  | nil => simp
  | cons kv rest ih =>
    obtain ⟨k1, v1⟩ := kv
    by_cases h1 : k1 = k
    · simp [pyLookup, h1] at h
    · simp only [pyLookup, if_neg h1] at h
      simp [ih h, h1]

/-- Every value stored at `k` (if any) is a dict. -/
def dictValuedAt (kvs : List (String × Py)) (k : String) : Prop :=
  ∀ v, pyLookup kvs k = some v → ∃ m, v = Py.dict m

/-- The shape of a GET payload that `update_application` can patch without
raising: a dict whose `spec` is a dict, whose `source`, `destination` and
`syncPolicy` values (when present) are dicts, and whose
`syncPolicy.automated` value (when present) is a dict. -/
def updOkShape (gd : Py) : Prop :=
  ∃ kvs spec, gd = Py.dict kvs ∧ pyLookup kvs "spec" = some (Py.dict spec) ∧
    dictValuedAt spec "source" ∧ dictValuedAt spec "destination" ∧
    dictValuedAt spec "syncPolicy" ∧
    (∀ m, pyLookup spec "syncPolicy" = some (Py.dict m) → dictValuedAt m "automated")

theorem dictValuedAt_assocSet_ne {kvs : List (String × Py)} {k : String}
    (h : dictValuedAt kvs k) (k' : String) (v : Py) (hne : k' ≠ k) :
    dictValuedAt (pyAssocSet kvs k' v) k := by
  intro u hu
  rw [pyLookup_assocSet_ne _ _ _ _ hne] at hu
  exact h u hu

theorem dictValuedAt_assocSet_self {kvs : List (String × Py)} (k : String)
    (m : List (String × Py)) : dictValuedAt (pyAssocSet kvs k (Py.dict m)) k := by
  intro u hu
  rw [pyLookup_assocSet_self] at hu
  injection hu with h2
  exact ⟨m, h2.symm⟩

theorem ifSet_dict (c : Bool) (kvs : List (String × Py)) (k : String) (v : Py) :
    ∃ kvs', ifSet c (Py.dict kvs) k v = Except.ok (Py.dict kvs') := by
  cases c
  · exact ⟨_, rfl⟩
  · exact ⟨_, rfl⟩

/-- When a value has a `k` key it is a dict. -/
theorem dict_of_hasKey {p : Py} {k : String} (h : pyHasKeyB p k = true) :
    ∃ kvs, p = Py.dict kvs := by
  cases p <;> simp_all [pyHasKeyB]

/-- The failure-path wrapper shared by every thin tool:
`{"error": data.get("error", default)}` succeeds on a dict payload and the
result carries an `error` key. -/
theorem errWrap_ok {data : Py} (hd : pyHasKeyB data "error" = true) (default : Py) :
    ∃ m, (pyGetE data "error" default).map (fun e => Py.dict [("error", e)]) =
      Except.ok m ∧ pyHasKeyB m "error" = true := by
  obtain ⟨kvs, rfl⟩ := dict_of_hasKey hd
  exact ⟨_, rfl, rfl⟩

/-- `true` unless the value is a success-shaped `(false, p)` classification
whose payload lacks an `error` key. -/
def resultHasErr : Except PyExc (Bool × Py) → Bool
  | .ok (false, p) => pyHasKeyB p "error"
  | _ => true

theorem classifyResponse_resultHasErr (st : Nat) (json : Option Py) (text : String) :
    resultHasErr (classifyResponse ⟨st, json, text⟩) = true := by
  by_cases hmem : st ∈ [200, 201, 202, 204]
  · cases hb : (st == 204) <;> rcases json with _ | j <;>
      simp [classifyResponse, hmem, hb, resultHasErr]
  · rcases json with _ | j
    · simp [classifyResponse, hmem, resultHasErr, pyHasKeyB]
    · cases j with
      | dict kvs =>
        cases hin : kvs.any (fun kv => kv.1 == "error")
        · simp [classifyResponse, hmem, pyInStr, hin, resultHasErr, pyHasKeyB]
        · rcases hv : pyLookup kvs "error" with _ | v <;>
            simp [classifyResponse, hmem, pyInStr, hin, pyGetItem, hv, resultHasErr,
              pyHasKeyB]
      | str s =>
        cases hin : containsStr s "error" <;>
          simp [classifyResponse, hmem, pyInStr, hin, pyGetItem, resultHasErr, pyHasKeyB]
      | list xs =>
        cases hin : xs.any (fun x => Py.beq x (Py.str "error")) <;>
          simp [classifyResponse, hmem, pyInStr, hin, pyGetItem, resultHasErr, pyHasKeyB]
      | none => simp [classifyResponse, hmem, pyInStr, resultHasErr]
      | bool b => simp [classifyResponse, hmem, pyInStr, resultHasErr]
      | int n => simp [classifyResponse, hmem, pyInStr, resultHasErr]

theorem classifyResponse_false_has_error {resp : HttpResponse} {p : Py}
    (h : classifyResponse resp = Except.ok (false, p)) :
    pyHasKeyB p "error" = true := by
  obtain ⟨st, json, text⟩ := resp
  have := classifyResponse_resultHasErr st json text
  rw [h] at this
  simpa [resultHasErr] using this

/-- Every failure result of the executor is a dict carrying an `error` key. -/
theorem make_api_request_failure_has_error (cfg : ClientConfig) (path method : String)
    (token api_url : Option String) (params data : Py) (timeout : Nat)
    (verify_ssl : Option Bool) (outcome : HttpOutcome) :
    (make_api_request cfg path method token api_url params data timeout verify_ssl
      outcome).ok = false →
    pyHasKeyB (make_api_request cfg path method token api_url params data timeout
      verify_ssl outcome).payload "error" = true := by
  cases htok : optStrTruthy (resolveToken cfg token)
  · simp only [make_api_request, htok, Bool.not_false, reduceIte]
    intro _; rfl
  · by_cases hm : method ∉ ["GET", "POST", "PUT", "PATCH", "DELETE"]
    · simp only [make_api_request, htok, Bool.not_true, Bool.false_eq_true, hm, reduceIte]
      intro _; rfl
    · simp only [make_api_request, htok, Bool.not_true, Bool.false_eq_true, hm, reduceIte]
      rcases outcome with e | resp
      · cases e <;> (intro _; rfl)
      · rcases hc : classifyResponse resp with e | pr
        · simp only [exceptBind_ok, hc]
          cases e <;> (intro _; rfl)
        · obtain ⟨ok1, p1⟩ := pr
          simp only [exceptBind_ok, hc]
          cases ok1
          · intro _
            exact classifyResponse_false_has_error hc
          · intro hfalse
            exact absurd hfalse (by simp)

theorem upd_project_block_ok (project : Option String) {gd : Py} (h : updOkShape gd) :
    ∃ gd', upd_project_block project gd = Except.ok gd' ∧ updOkShape gd' := by
  obtain ⟨kvs, spec, rfl, hspec, hsrc, hdst, hsp, hauto⟩ := h
  cases hp : optStrTruthy project
  · exact ⟨_, by simp [upd_project_block, hp, exceptPure_def],
      kvs, spec, rfl, hspec, hsrc, hdst, hsp, hauto⟩
  · refine ⟨Py.dict (pyAssocSet kvs "spec" (Py.dict (pyAssocSet spec "project"
        (Py.str (project.getD ""))))), ?_, ?_⟩
    · simp only [upd_project_block, hp, reduceIte, pyGetItem, hspec, exceptBind_ok,
        exceptPure_def, pySetItem]
    · exact ⟨_, _, rfl, pyLookup_assocSet_self _ _ _,
        dictValuedAt_assocSet_ne hsrc _ _ (by decide),
        dictValuedAt_assocSet_ne hdst _ _ (by decide),
        dictValuedAt_assocSet_ne hsp _ _ (by decide),
        fun m hm => hauto m (by
          rwa [pyLookup_assocSet_ne _ _ _ _ (by decide)] at hm)⟩

theorem upd_source_block_ok (repo_url path revision : Option String) {gd : Py}
    (h : updOkShape gd) :
    ∃ gd', upd_source_block repo_url path revision gd = Except.ok gd' ∧ updOkShape gd' := by
  obtain ⟨kvs, spec, rfl, hspec, hsrc, hdst, hsp, hauto⟩ := h
  cases hg : (optStrTruthy repo_url || optStrTruthy path || optStrTruthy revision)
  · exact ⟨_, by simp [upd_source_block, hg, exceptPure_def],
      kvs, spec, rfl, hspec, hsrc, hdst, hsp, hauto⟩
  · have hsv : ∃ m0, (pyLookup spec "source").getD (Py.dict []) = Py.dict m0 := by
      rcases hvs : pyLookup spec "source" with _ | v
      · exact ⟨[], rfl⟩
      · obtain ⟨m, rfl⟩ := hsrc v hvs
        exact ⟨m, rfl⟩
    obtain ⟨m0, hm0⟩ := hsv
    obtain ⟨m1, hm1⟩ := ifSet_dict (optStrTruthy repo_url) m0 "repoURL"
      (Py.str (repo_url.getD ""))
    obtain ⟨m2, hm2⟩ := ifSet_dict (optStrTruthy path) m1 "path"
      (Py.str (path.getD ""))
    obtain ⟨m3, hm3⟩ := ifSet_dict (optStrTruthy revision) m2
      "targetRevision" (Py.str (revision.getD ""))
    refine ⟨Py.dict (pyAssocSet kvs "spec" (Py.dict (pyAssocSet spec "source"
        (Py.dict m3)))), ?_, ?_⟩
    · simp only [upd_source_block, hg, reduceIte, pyGetItem, hspec, exceptBind_ok,
        exceptPure_def, pyGetE, hm0, hm1, hm2, hm3, pySetItem]
    · exact ⟨_, _, rfl, pyLookup_assocSet_self _ _ _,
        dictValuedAt_assocSet_self _ _,
        dictValuedAt_assocSet_ne hdst _ _ (by decide),
        dictValuedAt_assocSet_ne hsp _ _ (by decide),
        fun m hm => hauto m (by
          rwa [pyLookup_assocSet_ne _ _ _ _ (by decide)] at hm)⟩

theorem upd_dest_block_ok (dest_server dest_namespace : Option String) {gd : Py}
    (h : updOkShape gd) :
    ∃ gd', upd_dest_block dest_server dest_namespace gd = Except.ok gd' ∧ updOkShape gd' := by
  obtain ⟨kvs, spec, rfl, hspec, hsrc, hdst, hsp, hauto⟩ := h
  cases hg : (optStrTruthy dest_server || optStrTruthy dest_namespace)
  · exact ⟨_, by simp [upd_dest_block, hg, exceptPure_def],
      kvs, spec, rfl, hspec, hsrc, hdst, hsp, hauto⟩
  · have hsv : ∃ m0, (pyLookup spec "destination").getD (Py.dict []) = Py.dict m0 := by
      rcases hvs : pyLookup spec "destination" with _ | v
      · exact ⟨[], rfl⟩
      · obtain ⟨m, rfl⟩ := hdst v hvs
        exact ⟨m, rfl⟩
    obtain ⟨m0, hm0⟩ := hsv
    obtain ⟨m1, hm1⟩ := ifSet_dict (optStrTruthy dest_server) m0 "server"
      (Py.str (dest_server.getD ""))
    obtain ⟨m2, hm2⟩ := ifSet_dict (optStrTruthy dest_namespace) m1
      "namespace" (Py.str (dest_namespace.getD ""))
    refine ⟨Py.dict (pyAssocSet kvs "spec" (Py.dict (pyAssocSet spec "destination"
        (Py.dict m2)))), ?_, ?_⟩
    · simp only [upd_dest_block, hg, reduceIte, pyGetItem, hspec, exceptBind_ok,
        exceptPure_def, pyGetE, hm0, hm1, hm2, pySetItem]
    · exact ⟨_, _, rfl, pyLookup_assocSet_self _ _ _,
        dictValuedAt_assocSet_ne hsrc _ _ (by decide),
        dictValuedAt_assocSet_self _ _,
        dictValuedAt_assocSet_ne hsp _ _ (by decide),
        fun m hm => hauto m (by
          rwa [pyLookup_assocSet_ne _ _ _ _ (by decide)] at hm)⟩

theorem Py.isNone_dict (kvs : List (String × Py)) : (Py.dict kvs).isNone = false := rfl

theorem ifSet_true (p : Py) (k : String) (v : Py) : ifSet true p k v = pySetItem p k v := rfl

theorem ifSet_false (p : Py) (k : String) (v : Py) : ifSet false p k v = pure p := rfl

theorem upd_sync_block_ok (automated_sync prune self_heal : Option Bool) {gd : Py}
    (h : updOkShape gd) :
    ∃ gd', upd_sync_block automated_sync prune self_heal gd = Except.ok gd' := by
  obtain ⟨kvs, spec, rfl, hspec, hsrc, hdst, hsp, hauto⟩ := h
  cases hg : (automated_sync.isSome || prune.isSome || self_heal.isSome)
  · exact ⟨Py.dict kvs, by
      simp only [upd_sync_block, hg, Bool.false_eq_true, if_false, exceptPure_def]⟩
  · have hsv : ∃ m0, (pyLookup spec "syncPolicy").getD (Py.dict []) = Py.dict m0 ∧
        dictValuedAt m0 "automated" := by
      rcases hvs : pyLookup spec "syncPolicy" with _ | v
      · exact ⟨[], rfl, fun u hu => by simp [pyLookup] at hu⟩
      · obtain ⟨m, rfl⟩ := hsp v hvs
        exact ⟨m, rfl, hauto m hvs⟩
    obtain ⟨m0, hm0, hauto0⟩ := hsv
    rcases hv : pyLookup m0 "automated" with _ | a
    · -- no `automated` key: hasAuto = false, automated = None
      have hany := pyLookup_none_any_false hv
      obtain ⟨m1, hm1⟩ := ifSet_dict prune.isSome [] "prune" (Py.bool (prune.getD false))
      obtain ⟨m2, hm2⟩ := ifSet_dict self_heal.isSome m1 "selfHeal"
        (Py.bool (self_heal.getD false))
      rcases automated_sync with _ | b
      · exact ⟨Py.dict (pyAssocSet kvs "spec" (Py.dict (pyAssocSet spec "syncPolicy"
          (Py.dict m0)))), by
          simp only [upd_sync_block, hg, reduceIte, pyGetItem, hspec, exceptBind_ok,
            exceptPure_def, pyGetE, hm0, pyInStr, hany, hv, Option.getD_some,
            Option.getD_none, Py.isNone_none, Py.isNone_dict, Bool.not_true,
            Bool.not_false, Bool.false_and, Bool.true_and, Bool.and_false, Bool.and_true,
            Option.some.injEq, reduceCtorEq, decide_True, decide_False,
            Bool.false_eq_true, Bool.true_eq_false, if_false, if_true,
            ifSet_true, ifSet_false, hm1, hm2, pySetItem, pyDelItem]⟩
      · cases b
        · exact ⟨Py.dict (pyAssocSet kvs "spec" (Py.dict (pyAssocSet spec "syncPolicy"
            (Py.dict m0)))), by
            simp only [upd_sync_block, hg, reduceIte, pyGetItem, hspec, exceptBind_ok,
              exceptPure_def, pyGetE, hm0, pyInStr, hany, hv, Option.getD_some,
              Option.getD_none, Py.isNone_none, Py.isNone_dict, Bool.not_true,
              Bool.not_false, Bool.false_and, Bool.true_and, Bool.and_false, Bool.and_true,
              Option.some.injEq, reduceCtorEq, decide_True, decide_False,
              Bool.false_eq_true, Bool.true_eq_false, if_false, if_true,
              ifSet_true, ifSet_false, hm1, hm2, pySetItem, pyDelItem]⟩
        · exact ⟨Py.dict (pyAssocSet kvs "spec" (Py.dict (pyAssocSet spec "syncPolicy"
            (Py.dict (pyAssocSet m0 "automated" (Py.dict m2)))))), by
            simp only [upd_sync_block, hg, reduceIte, pyGetItem, hspec, exceptBind_ok,
              exceptPure_def, pyGetE, hm0, pyInStr, hany, hv, Option.getD_some,
              Option.getD_none, Py.isNone_none, Py.isNone_dict, Bool.not_true,
              Bool.not_false, Bool.false_and, Bool.true_and, Bool.and_false, Bool.and_true,
              Option.some.injEq, reduceCtorEq, decide_True, decide_False,
              Bool.false_eq_true, Bool.true_eq_false, if_false, if_true,
              ifSet_true, ifSet_false, hm1, hm2, pySetItem, pyDelItem]⟩
    · -- `automated` key present with a dict value
      obtain ⟨am, rfl⟩ := hauto0 a hv
      have hany := pyLookup_any_eq_true hv
      obtain ⟨m1, hm1⟩ := ifSet_dict prune.isSome am "prune" (Py.bool (prune.getD false))
      obtain ⟨m2, hm2⟩ := ifSet_dict self_heal.isSome m1 "selfHeal"
        (Py.bool (self_heal.getD false))
      rcases automated_sync with _ | b
      · exact ⟨Py.dict (pyAssocSet kvs "spec" (Py.dict (pyAssocSet spec "syncPolicy"
          (Py.dict (pyAssocSet m0 "automated" (Py.dict m2)))))), by
          simp only [upd_sync_block, hg, reduceIte, pyGetItem, hspec, exceptBind_ok,
            exceptPure_def, pyGetE, hm0, pyInStr, hany, hv, Option.getD_some,
            Option.getD_none, Py.isNone_none, Py.isNone_dict, Bool.not_true,
            Bool.not_false, Bool.false_and, Bool.true_and, Bool.and_false, Bool.and_true,
            Option.some.injEq, reduceCtorEq, decide_True, decide_False,
            Bool.false_eq_true, Bool.true_eq_false, if_false, if_true,
            ifSet_true, ifSet_false, hm1, hm2, pySetItem, pyDelItem]⟩
      · cases b
        · exact ⟨Py.dict (pyAssocSet kvs "spec" (Py.dict (pyAssocSet spec "syncPolicy"
            (Py.dict (pyAssocDel m0 "automated"))))), by
            simp only [upd_sync_block, hg, reduceIte, pyGetItem, hspec, exceptBind_ok,
              exceptPure_def, pyGetE, hm0, pyInStr, hany, hv, Option.getD_some,
              Option.getD_none, Py.isNone_none, Py.isNone_dict, Bool.not_true,
              Bool.not_false, Bool.false_and, Bool.true_and, Bool.and_false, Bool.and_true,
              Option.some.injEq, reduceCtorEq, decide_True, decide_False,
              Bool.false_eq_true, Bool.true_eq_false, if_false, if_true,
              ifSet_true, ifSet_false, hm1, hm2, pySetItem, pyDelItem]⟩
        · exact ⟨Py.dict (pyAssocSet kvs "spec" (Py.dict (pyAssocSet spec "syncPolicy"
            (Py.dict (pyAssocSet m0 "automated" (Py.dict m2)))))), by
            simp only [upd_sync_block, hg, reduceIte, pyGetItem, hspec, exceptBind_ok,
              exceptPure_def, pyGetE, hm0, pyInStr, hany, hv, Option.getD_some,
              Option.getD_none, Py.isNone_none, Py.isNone_dict, Bool.not_true,
              Bool.not_false, Bool.false_and, Bool.true_and, Bool.and_false, Bool.and_true,
              Option.some.injEq, reduceCtorEq, decide_True, decide_False,
              Bool.false_eq_true, Bool.true_eq_false, if_false, if_true,
              ifSet_true, ifSet_false, hm1, hm2, pySetItem, pyDelItem]⟩

/-- `update_application` returns a mapping (never raises) when the GET payload
has the patchable shape and both failure payloads are error dicts; every
failure outcome carries an `error` key. -/
theorem update_application_ok (name : String)
    (project repo_url path dest_server dest_namespace revision : Option String)
    (automated_sync prune self_heal : Option Bool) (validate : Bool)
    (gs ps : Bool) (gd pd : Py)
    (hgfail : gs = false → pyHasKeyB gd "error" = true)
    (hgok : gs = true → updOkShape gd)
    (hpfail : ps = false → pyHasKeyB pd "error" = true) :
    ∃ m, update_application name project repo_url path dest_server dest_namespace
      revision automated_sync prune self_heal validate (gs, gd) (ps, pd) = Except.ok m
      ∧ ((gs = false ∨ ps = false) → pyHasKeyB m "error" = true)
      ∧ (gs = true → ps = true → m = pd) := by
  cases gs
  · obtain ⟨kvs, rfl⟩ := dict_of_hasKey (hgfail rfl)
    exact ⟨_, rfl, fun _ => rfl, fun h _ => absurd h (by decide)⟩
  · obtain ⟨g1, e1, h1⟩ := upd_project_block_ok project (hgok rfl)
    obtain ⟨g2, e2, h2⟩ := upd_source_block_ok repo_url path revision h1
    obtain ⟨g3, e3, h3⟩ := upd_dest_block_ok dest_server dest_namespace h2
    obtain ⟨g4, e4⟩ := upd_sync_block_ok automated_sync prune self_heal h3
    cases ps
    · obtain ⟨kvs, rfl⟩ := dict_of_hasKey (hpfail rfl)
      refine ⟨Py.dict [("error", (pyLookup kvs "error").getD (Py.str
        ("Failed to update application " ++ squot ++ name ++ squot)))], ?_,
        fun _ => rfl, fun _ h => absurd h (by decide)⟩
      simp only [update_application, Bool.not_true, Bool.false_eq_true, if_false,
        e1, e2, e3, e4, exceptBind_ok, exceptPure_def, pyGetE, Bool.not_false, if_true]
    · refine ⟨pd, ?_, ?_, fun _ _ => rfl⟩
      · simp only [update_application, Bool.not_true, Bool.false_eq_true, if_false,
          e1, e2, e3, e4, exceptBind_ok, exceptPure_def, Bool.not_false, if_true]
      · rintro (h | h) <;> exact absurd h (by decide)

/-- C3 counterexample: `(true, {"status": "success"})` is a possible
request-layer result (a 204 response produces exactly that), and
`update_application` applied to it with a project update raises a KeyError
across the tool boundary instead of returning a mapping. -/
theorem c3_counterexample_update_raises :
    make_api_request ⟨some "t", "http://localhost:8080/api/v1", true⟩
      "applications/guestbook" "GET" Option.none Option.none (Py.dict []) (Py.dict [])
      30 Option.none (Except.ok ⟨204, Option.none, ""⟩) =
      ⟨true, Py.dict [("status", Py.str "success")], true,
        "http://localhost:8080/api/v1/applications/guestbook"⟩
    ∧ update_application "guestbook" (some "production") Option.none Option.none
        Option.none Option.none Option.none Option.none Option.none Option.none true
        (true, Py.dict [("status", Py.str "success")]) (true, Py.dict []) =
      Except.error (PyExc.other "KeyError: spec") :=
  ⟨rfl, rfl⟩

/-- C3 amended: every failure payload of the request layer is a dict with an
`error` key.  The nine tools other than `update_application` never raise for
any request-layer result, and on failure each returns a mapping with an
`error` key; on success, `list_applications`, `get_application_details`,
`get_user_info`, `get_settings`, `get_plugins` and `get_version` return the
payload unchanged, `create_application` and `sync_application` return it
alongside the body they sent, and `delete_application` returns a
`status`/`message`/`details` mapping wrapping the payload under `details`.
`update_application` returns the PUT payload on success and an `error`
mapping on either failure, and never raises provided the fetched payload is
a dict whose `spec` is a dict with dict-valued `source`/`destination`/
`syncPolicy` (and dict-valued `automated` inside it) — without that shape it
can raise, as the counterexample shows. -/
theorem c3_tools_return_mappings :
    (∀ (cfg : ClientConfig) (path method : String) (token api_url : Option String)
      (params data : Py) (timeout : Nat) (verify_ssl : Option Bool)
      (outcome : HttpOutcome),
      (make_api_request cfg path method token api_url params data timeout verify_ssl
        outcome).ok = false →
      pyHasKeyB (make_api_request cfg path method token api_url params data timeout
        verify_ssl outcome).payload "error" = true)
    ∧ (∀ (s : Bool) (d : Py), (s = false → pyHasKeyB d "error" = true) →
        (s = true → list_applications s d = Except.ok d) ∧
        (s = false → ∃ m, list_applications s d = Except.ok m ∧
          pyHasKeyB m "error" = true))
    ∧ (∀ (n : String) (s : Bool) (d : Py), (s = false → pyHasKeyB d "error" = true) →
        (s = true → get_application_details n s d = Except.ok d) ∧
        (s = false → ∃ m, get_application_details n s d = Except.ok m ∧
          pyHasKeyB m "error" = true))
    ∧ (∀ (n p r pa ds dn rev : String) (as pr sh : Bool) (ns : String)
        (validate upsert : Bool) (s : Bool) (d : Py),
        (s = false → pyHasKeyB d "error" = true) →
        ∃ body m, create_application n p r pa ds dn rev as pr sh ns validate upsert
          (s, d) = Except.ok (body, m) ∧
          (s = false → pyHasKeyB m "error" = true) ∧ (s = true → m = d))
    ∧ (∀ (name : String)
        (project repo_url path dest_server dest_namespace revision : Option String)
        (automated_sync prune self_heal : Option Bool) (validate : Bool)
        (gs ps : Bool) (gd pd : Py),
        (gs = false → pyHasKeyB gd "error" = true) →
        (gs = true → updOkShape gd) →
        (ps = false → pyHasKeyB pd "error" = true) →
        ∃ m, update_application name project repo_url path dest_server dest_namespace
          revision automated_sync prune self_heal validate (gs, gd) (ps, pd) =
          Except.ok m ∧ ((gs = false ∨ ps = false) → pyHasKeyB m "error" = true)
          ∧ (gs = true → ps = true → m = pd))
    ∧ (∀ (n : String) (c : Bool) (pp ns : String) (s : Bool) (d : Py),
        (s = false → pyHasKeyB d "error" = true) →
        (s = true → delete_application n c pp ns (s, d) = Except.ok (Py.dict
          [("status", Py.str "success"),
           ("message", Py.str ("Application " ++ squot ++ n ++ squot ++
             " deleted successfully")),
           ("details", d)])) ∧
        (s = false → ∃ m, delete_application n c pp ns (s, d) = Except.ok m ∧
          pyHasKeyB m "error" = true))
    ∧ (∀ (n rev : String) (pr dr : Bool) (strat : String) (resources : Py)
        (ns : String) (s : Bool) (d : Py),
        (s = false → pyHasKeyB d "error" = true) →
        ∃ body m, sync_application n rev pr dr strat resources ns (s, d) =
          Except.ok (body, m) ∧
          (s = false → pyHasKeyB m "error" = true) ∧ (s = true → m = d))
    ∧ (∀ (s : Bool) (d : Py), (s = false → pyHasKeyB d "error" = true) →
        (s = true → get_user_info s d = Except.ok d) ∧
        (s = false → ∃ m, get_user_info s d = Except.ok m ∧ pyHasKeyB m "error" = true))
    ∧ (∀ (s : Bool) (d : Py), (s = false → pyHasKeyB d "error" = true) →
        (s = true → get_settings s d = Except.ok d) ∧
        (s = false → ∃ m, get_settings s d = Except.ok m ∧ pyHasKeyB m "error" = true))
    ∧ (∀ (s : Bool) (d : Py), (s = false → pyHasKeyB d "error" = true) →
        (s = true → get_plugins s d = Except.ok d) ∧
        (s = false → ∃ m, get_plugins s d = Except.ok m ∧ pyHasKeyB m "error" = true))
    ∧ (∀ (s : Bool) (d : Py), (s = false → pyHasKeyB d "error" = true) →
        (s = true → get_version s d = Except.ok d) ∧
        (s = false → ∃ m, get_version s d = Except.ok m ∧ pyHasKeyB m "error" = true)) := by
  refine ⟨make_api_request_failure_has_error, ?_, ?_, ?_, ?_, ?_, ?_, ?_, ?_, ?_, ?_⟩
  · intro s d hfail
    refine ⟨?_, ?_⟩
    · rintro rfl; rfl
    · rintro rfl
      obtain ⟨kvs, rfl⟩ := dict_of_hasKey (hfail rfl)
      exact ⟨_, rfl, rfl⟩
  · intro n s d hfail
    refine ⟨?_, ?_⟩
    · rintro rfl; rfl
    · rintro rfl
      obtain ⟨kvs, rfl⟩ := dict_of_hasKey (hfail rfl)
      exact ⟨_, rfl, rfl⟩
  · intro n p r pa ds dn rev as pr sh ns validate upsert s d hfail
    rcases happ : application_to_api_format
        (create_application_app n p r pa ds dn rev as pr sh ns) with e | body
    · exfalso
      cases as <;>
        simp only [create_application_app, application_to_api_format,
          Bool.false_eq_true, Bool.true_eq_false, if_false, if_true, reduceIte,
          Py.isNone_none, Py.truthy, Bool.not_true, List.isEmpty_nil,
          pyLookup, Option.getD_some, Option.getD_none, String.reduceEq,
          reduceCtorEq] at happ
    · cases s
      · obtain ⟨kvs, rfl⟩ := dict_of_hasKey (hfail rfl)
        refine ⟨body, Py.dict [("error", (pyLookup kvs "error").getD
          (Py.str "Failed to create application"))], ?_, fun _ => rfl,
          fun h => absurd h (by decide)⟩
        simp only [create_application, happ, exceptBind_ok, exceptPure_def, pyGetE,
          Bool.false_eq_true, if_false]
      · refine ⟨body, d, ?_, fun h => absurd h (by decide), fun _ => rfl⟩
        simp only [create_application, happ, exceptBind_ok, exceptPure_def, if_true]
  · intro name project repo_url path dest_server dest_namespace revision
      automated_sync prune self_heal validate gs ps gd pd hgfail hgok hpfail
    exact update_application_ok name project repo_url path dest_server dest_namespace
      revision automated_sync prune self_heal validate gs ps gd pd hgfail hgok hpfail
  · intro n c pp ns s d hfail
    cases s
    · refine ⟨fun h => absurd h (by decide), fun _ => ?_⟩
      obtain ⟨kvs, rfl⟩ := dict_of_hasKey (hfail rfl)
      exact ⟨_, rfl, rfl⟩
    · exact ⟨fun _ => rfl, fun h => absurd h (by decide)⟩
  · intro n rev pr dr strat resources ns s d hfail
    cases s
    · obtain ⟨kvs, rfl⟩ := dict_of_hasKey (hfail rfl)
      exact ⟨_, _, rfl, fun _ => rfl, fun h => absurd h (by decide)⟩
    · exact ⟨_, _, rfl, fun h => absurd h (by decide), fun _ => rfl⟩
  · intro s d hfail
    refine ⟨?_, ?_⟩
    · rintro rfl; rfl
    · rintro rfl
      obtain ⟨kvs, rfl⟩ := dict_of_hasKey (hfail rfl)
      exact ⟨_, rfl, rfl⟩
  · intro s d hfail
    refine ⟨?_, ?_⟩
    · rintro rfl; rfl
    · rintro rfl
      obtain ⟨kvs, rfl⟩ := dict_of_hasKey (hfail rfl)
      exact ⟨_, rfl, rfl⟩
  · intro s d hfail
    refine ⟨?_, ?_⟩
    · rintro rfl; rfl
    · rintro rfl
      obtain ⟨kvs, rfl⟩ := dict_of_hasKey (hfail rfl)
      exact ⟨_, rfl, rfl⟩
  · intro s d hfail
    refine ⟨?_, ?_⟩
    · rintro rfl; rfl
    · rintro rfl
      obtain ⟨kvs, rfl⟩ := dict_of_hasKey (hfail rfl)
      exact ⟨_, rfl, rfl⟩

/-- C3 witness: the amended theorem's `update_application` conjunct at a
concrete well-shaped GET payload and a failing PUT. -/
theorem c3_witness :
    ∃ m, update_application "guestbook" (some "prod") Option.none Option.none
      Option.none Option.none Option.none (some true) (some true) Option.none true
      (true, Py.dict [("spec", Py.dict [])])
      (false, Py.dict [("error", Py.str "denied")]) = Except.ok m
      ∧ ((true = false ∨ false = false) → pyHasKeyB m "error" = true)
      ∧ (true = true → false = true → m = Py.dict [("error", Py.str "denied")]) :=
  c3_tools_return_mappings.2.2.2.2.1 "guestbook" (some "prod") Option.none Option.none
    Option.none Option.none Option.none (some true) (some true) Option.none true
    true false (Py.dict [("spec", Py.dict [])]) (Py.dict [("error", Py.str "denied")])
    (fun h => absurd h (by decide))
    (fun _ => by
      refine ⟨[("spec", Py.dict [])], [], rfl, rfl, ?_, ?_, ?_, ?_⟩ <;>
        intro v hv <;> simp [pyLookup] at hv)
    (fun _ => rfl)
